import Mathlib

/-!
Verification of the news-ai service (src/main.py): article-content
extraction, political-bias classification glue, and the error mapping of
the POST /analyze_bias endpoint, embedded shallowly.

Conventions of the embedding:
* An HTML document is a first-child / next-sibling forest of nodes
  (`Forest`); an element carries its tag name and the list of CSS classes
  from its class attribute (empty list when the attribute is absent).
* bs4 `find_all(tag, class_=c)` is modelled by `findAllF`; note that in
  bs4, passing `class_=None` explicitly (as the source does through
  `selector.get` on the selector dict) matches only elements whose class
  attribute is absent, while `find_all`-ing with no class keyword at all
  (as in `element.find_all` of paragraph tags) puts no class constraint.
* The two remote collaborators (the page fetch and the Gemini call) are
  oracles passed in as data: a fetch outcome is either a parsed document
  or a `RequestException` message string, and a Gemini outcome is either a
  reply text or an exception message string. The endpoint result carries a
  `Trace` of the outbound calls actually issued.
* Python string containment (`"401" in str(e)`) is `strContains`;
  Python truthiness of the relevant values is modelled case by case.
-/

/-- A node list of an HTML document in first-child / next-sibling form:
either exhausted, a text node followed by its siblings, or an element
(tag name, CSS classes, children) followed by its siblings. -/
inductive Forest where
  | nil : Forest
  | textNode (s : String) (rest : Forest) : Forest
  | elemNode (tag : String) (classes : List String) (children : Forest) (rest : Forest) : Forest
deriving Repr

/-- A matched element as returned by `find_all`: its tag, classes and
child forest. -/
structure ElementData where
  tag : String
  classes : List String
  children : Forest
deriving Repr

/-- The class constraint of a `find_all` query: no constraint at all,
`class_=None` (bs4: the element must have no class attribute), or
`class_=c` (bs4: `c` must be among the element classes). -/
inductive ClassFilter where
  | anyClass : ClassFilter
  | noClass : ClassFilter
  | hasClass (c : String) : ClassFilter
deriving Repr

/-- Does an element with tag `t` and classes `cs` match a query? -/
def elemMatches (tag : String) (cf : ClassFilter) (t : String) (cs : List String) : Bool :=
  t == tag && (match cf with
    | .anyClass => true
    | .noClass => cs.isEmpty
    | .hasClass c => cs.contains c)

/-- bs4 `find_all`: every element of the forest matching the query, in
document order (pre-order: a node precedes its descendants, which precede
its later siblings). -/
def findAllF (tag : String) (cf : ClassFilter) : Forest → List ElementData
  | .nil => []
  | .textNode _ rest => findAllF tag cf rest
  | .elemNode t cs ch rest =>
    (if elemMatches tag cf t cs then [⟨t, cs, ch⟩] else [])
      ++ findAllF tag cf ch ++ findAllF tag cf rest

/-- bs4 `get_text` of a forest: the concatenation of every text node in
document order. -/
def getTextF : Forest → String
  | .nil => ""
  | .textNode s rest => s ++ getTextF rest
  | .elemNode _ _ ch rest => getTextF ch ++ getTextF rest

/-- `element.find_all` of paragraph tags followed by `p.get_text()`:
the text of every `p` descendant of the element, in document order. -/
def paragraphTextsOf (el : ElementData) : List String :=
  (findAllF "p" .anyClass el.children).map fun p => getTextF p.children

/-- One entry of the `selectors` list of `get_article_content`: a tag
name and the optional value at the `class_` key of the selector dict. -/
structure Selector where
  tag : String
  class_ : Option String
deriving Repr

/-- The fixed selector list of `get_article_content`, in source order. -/
def selectors : List Selector :=
  [ ⟨"div", some "story-element"⟩,
    ⟨"div", some "story-body"⟩,
    ⟨"article", none⟩,
    ⟨"div", some "article-body"⟩,
    ⟨"div", some "content"⟩,
    ⟨"main", none⟩,
    ⟨"section", some "article-content"⟩ ]

/-- The source passes `class_=selector.get` explicitly to `find_all`,
so a missing class becomes bs4 `class_=None`. -/
def classFilterOf : Option String → ClassFilter
  | none => .noClass
  | some c => .hasClass c

/-- `soup.find_all` for one selector dict. -/
def selectorElements (doc : Forest) (sel : Selector) : List ElementData :=
  findAllF sel.tag (classFilterOf sel.class_) doc

/-- The paragraph texts one selector contributes: for each matched
element in document order, each nested `p` text, concatenated. -/
def selectorTexts (doc : Forest) (sel : Selector) : List String :=
  ((selectorElements doc sel).map paragraphTextsOf).flatten

/-- The `for selector in selectors` loop of `get_article_content`:
`acc` is `article_content`. When `find_all` matches no element the loop
moves on; otherwise the paragraph texts are appended and the loop breaks
if `article_content` is now non-empty. -/
def extractLoop (doc : Forest) : List Selector → List String → List String
  | [], acc => acc
  | sel :: rest, acc =>
    let elements := selectorElements doc sel
    if elements.isEmpty then
      extractLoop doc rest acc
    else
      let acc2 := acc ++ ((elements.map paragraphTextsOf).flatten)
      if acc2.isEmpty then extractLoop doc rest acc2 else acc2

/-- `article_content` after the whole loop. -/
def extractedContent (doc : Forest) : List String :=
  extractLoop doc selectors []

/-- The value `get_article_content` returns on a successful fetch:
the newline join of the collected texts, or `none` when nothing was
collected. -/
def articleContentOfDoc (doc : Forest) : Option String :=
  let c := extractedContent doc
  if c.isEmpty then none else some (String.intercalate "\n" c)

/-- Is `pat` an initial segment of `l`? -/
def listPrefixOf : List Char → List Char → Bool
  | [], _ => true
  | _ :: _, [] => false
  | a :: as, b :: bs => a == b && listPrefixOf as bs

/-- Does `pat` occur contiguously inside `l`? -/
def listSubOf (pat : List Char) : List Char → Bool
  | [] => listPrefixOf pat []
  | b :: bs => listPrefixOf pat (b :: bs) || listSubOf pat bs

/-- Python substring containment, `pat in s`. -/
def strContains (s pat : String) : Bool :=
  listSubOf pat.toList s.toList

/-- A fastapi `HTTPException`, as raised by the source: a status code and
a detail message. -/
structure HTTPException where
  status_code : Nat
  detail : String
deriving Repr, DecidableEq

/-- Outcome of the one outbound `requests.get`: either a 2xx reply whose
body parsed to `doc`, or a raised `RequestException` whose `str` is
`msg` (for an HTTP-status failure raised by `raise_for_status`, `msg`
embeds the status code, the reason phrase and the URL). -/
inductive FetchOutcome where
  | success (doc : Forest) : FetchOutcome
  | failure (msg : String) : FetchOutcome

/-- The `str` of the `HTTPError` that `raise_for_status` raises on a 4xx
reply: the status code, the reason phrase and the requested URL. -/
def httpClientErrorStr (status reason url : String) : String :=
  status ++ " Client Error: " ++ reason ++ " for url: " ++ url

/-- `get_article_content` of the source, given the outcome of its single
fetch: on success, the extracted content (or `none`); on a
`RequestException`, the substring-classified `HTTPException`. The
source also converts any non-request exception into a 500; the pure
embedding has no such exceptions, so that branch is not reachable here. -/
def get_article_content (url : String) (fetch : FetchOutcome) :
    Except HTTPException (Option String) :=
  match fetch with
  | .success doc => .ok (articleContentOfDoc doc)
  | .failure msg =>
    if strContains msg "401" || strContains msg "403" then
      .error ⟨422, "Website blocked access to URL: " ++ url ++ ". Try a different news source."⟩
    else if strContains msg "404" then
      .error ⟨404, "Article not found at URL: " ++ url⟩
    else
      .error ⟨422, "Failed to fetch article from URL: " ++ url⟩

/-- The status code of a classified extraction failure, if any. -/
def excStatus : Except HTTPException (Option String) → Option Nat
  | .error e => some e.status_code
  | .ok _ => none

/-- Outcome of the one Gemini call (`GenerativeModel` construction,
`generate_content` and the `response.text` accessor): either the reply
text, or a raised exception whose `str` is `msg`. -/
inductive GeminiOutcome where
  | success (text : String) : GeminiOutcome
  | failure (msg : String) : GeminiOutcome

/-- Python `str.strip()` with no argument: the string with leading and
trailing whitespace removed. -/
def pyStrip (s : String) : String :=
  String.mk (((s.data.dropWhile Char.isWhitespace).reverse.dropWhile
    Char.isWhitespace).reverse)

/-- Python `str.lower` on one character, for the ASCII range the source
messages live in. -/
def lowerChar (c : Char) : Char :=
  if 65 ≤ c.toNat ∧ c.toNat ≤ 90 then Char.ofNat (c.toNat + 32) else c

/-- Python `str.lower`, character by character. -/
def lowerStr (s : String) : String :=
  String.mk (s.data.map lowerChar)

/-- The source check `"API_KEY" in str(e) or "authentication" in
str(e).lower()`. -/
def isAuthErrorMsg (msg : String) : Bool :=
  strContains msg "API_KEY" || strContains (lowerStr msg) "authentication"

/-- The source check `"quota" in str(e).lower() or "limit" in
str(e).lower()`. -/
def isQuotaErrorMsg (msg : String) : Bool :=
  strContains (lowerStr msg) "quota" || strContains (lowerStr msg) "limit"

/-- Python truthiness of the `GOOGLE_API_KEY` environment value:
`os.getenv` returns `None` when unset, and the empty string is falsy. -/
def keyConfigured : Option String → Bool
  | none => false
  | some k => !k.isEmpty

/-- `analyze_political_bias` of the source. The Gemini interaction is an
oracle `gemini` from the prompt text to an outcome; the second component
of the result lists the prompt of every inference call issued. -/
def analyze_political_bias (apiKey : Option String) (article_text : String)
    (gemini : String → GeminiOutcome) :
    Except HTTPException String × List String :=
  if !keyConfigured apiKey then
    (.error ⟨500, "Google API key not configured. Please set GOOGLE_API_KEY environment variable."⟩, [])
  else
    match gemini article_text with
    | .success t => (.ok (pyStrip t), [article_text])
    | .failure msg =>
      if isAuthErrorMsg msg then
        (.error ⟨401, "Invalid Google API key. Please check your GOOGLE_API_KEY environment variable."⟩,
          [article_text])
      else if isQuotaErrorMsg msg then
        (.error ⟨429, "Google API quota exceeded. Please try again later."⟩, [article_text])
      else
        (.error ⟨500, "Google Gemini API error: " ++ msg⟩, [article_text])

/-- A parsed JSON value, as `await request.json()` would produce. -/
inductive JsonValue where
  | null : JsonValue
  | bool (b : Bool) : JsonValue
  | num (n : Int) : JsonValue
  | str (s : String) : JsonValue
  | arr (items : List JsonValue) : JsonValue
  | obj (fields : List (String × JsonValue)) : JsonValue

/-- Python truthiness of a JSON value. -/
def jsonTruthy : JsonValue → Bool
  | .null => false
  | .bool b => b
  | .num n => n != 0
  | .str s => !s.isEmpty
  | .arr items => !items.isEmpty
  | .obj fields => !fields.isEmpty

/-- `dict.get`: the value at a key, or `None`. A dict produced by JSON
decoding has distinct keys, so first-match lookup is exact. -/
def getField : List (String × JsonValue) → String → Option JsonValue
  | [], _ => none
  | (k, v) :: rest, key => if k == key then some v else getField rest key

/-- The Python type name of a JSON value, used in modelled
`AttributeError` messages. -/
def pyTypeName : JsonValue → String
  | .null => "NoneType"
  | .bool _ => "bool"
  | .num _ => "int"
  | .str _ => "str"
  | .arr _ => "list"
  | .obj _ => "dict"

/-- The request body as the endpoint sees it: either `request.json()`
raised (body not valid JSON; `errMsg` is the `str` of the decode error),
or it produced a JSON value. -/
inductive RequestBody where
  | invalidJson (errMsg : String) : RequestBody
  | jsonBody (j : JsonValue) : RequestBody

/-- The ambient collaborators of one request: the configured credential
and the two remote oracles. -/
structure Env where
  apiKey : Option String
  fetch : String → FetchOutcome
  gemini : String → GeminiOutcome

/-- The outbound calls a request actually issued: the URLs fetched and
the prompts sent to the model. -/
structure Trace where
  fetchCalls : List String
  geminiCalls : List String
deriving Repr, DecidableEq

/-- The HTTP response of the endpoint: the 200 payload
(`political_bias` and `url`), or an error status with its detail. -/
inductive Response where
  | success (political_bias : String) (url : String) : Response
  | error (status_code : Nat) (detail : String) : Response
deriving Repr, DecidableEq

/-- The status code of a `Response`, `none` for the 200 payload. -/
def statusOf : Response → Option Nat
  | .success _ _ => none
  | .error s _ => some s

/-- The `except Exception` fallback of the endpoint: a 500 whose detail
interpolates `str(e)`. -/
def internalErr (msg : String) : Response :=
  .error 500 ("An internal server error occurred: " ++ msg)

/-- The fixed 404 detail for an empty extraction. -/
def noContentDetail : String :=
  "No article content found. The website might not be supported or the article might be behind a paywall."

/-- The `POST /analyze_bias` handler `analyze_bias` of the source, with
its `try`/`except` structure made explicit: `HTTPException`s keep their
status and detail, any other exception becomes a 500 embedding `str(e)`.
The JSON decode error and the `AttributeError` of `data.get` on a
non-dict are the two unexpected exceptions the pure embedding can
express; a truthy non-string `url` value would reach `requests.get`
inside the library, which no claim exercises and which is left as an
explicitly un-modelled branch. -/
def analyze_bias (env : Env) (body : RequestBody) : Response × Trace :=
  match body with
  | .invalidJson errMsg => (internalErr errMsg, ⟨[], []⟩)
  | .jsonBody j =>
    match j with
    | .obj fields =>
      (match getField fields "url" with
       | none => (.error 400 "URL not provided.", ⟨[], []⟩)
       | some v =>
         if !jsonTruthy v then
           (.error 400 "URL not provided.", ⟨[], []⟩)
         else
           match v with
           | .str url =>
             (match get_article_content url (env.fetch url) with
              | .error e => (.error e.status_code e.detail, ⟨[url], []⟩)
              | .ok none => (.error 404 noContentDetail, ⟨[url], []⟩)
              | .ok (some text) =>
                if text.isEmpty then
                  (.error 404 noContentDetail, ⟨[url], []⟩)
                else
                  match analyze_political_bias env.apiKey text env.gemini with
                  | (.ok label, calls) => (.success label url, ⟨[url], calls⟩)
                  | (.error e, calls) => (.error e.status_code e.detail, ⟨[url], calls⟩))
           | other =>
             (internalErr ("un-modelled library failure for url of type " ++ pyTypeName other),
               ⟨[], []⟩))
    | other =>
      (internalErr (pyTypeName other ++ " object has no attribute get"), ⟨[], []⟩)

/-! Spec-side extraction readings, for comparison with the source loop. -/

/-- The extraction as claim C1 words it: the FIRST selector in order that
matches at least one ELEMENT wins outright — its nested paragraph texts
are returned (Absent when it has none), and no later selector is tried. -/
def specExtractClaim (doc : Forest) : List Selector → Option String
  | [] => none
  | sel :: rest =>
    if (selectorElements doc sel).isEmpty then
      specExtractClaim doc rest
    else
      let ts := selectorTexts doc sel
      if ts.isEmpty then none else some (String.intercalate "\n" ts)

/-- First-match-wins keyed on paragraphs: the texts of the first selector
in order that contributes at least one paragraph text. -/
def firstNonemptyTexts (doc : Forest) : List Selector → List String
  | [] => []
  | sel :: rest =>
    let ts := selectorTexts doc sel
    if ts.isEmpty then firstNonemptyTexts doc rest else ts

/-- The amended extraction reading: the newline join of the paragraph
texts of the first selector that contributes any; Absent when no
selector does. -/
def specExtractAmended (doc : Forest) (sels : List Selector) : Option String :=
  let ts := firstNonemptyTexts doc sels
  if ts.isEmpty then none else some (String.intercalate "\n" ts)

/-! Concrete documents and environments used by witnesses and
counterexamples. -/

/-- A document whose first matching selector (`div.story-element`)
contains no paragraph, while a later selector (`article`) does. -/
def docC1 : Forest :=
  .elemNode "div" ["story-element"] .nil
    (.elemNode "article" []
      (.elemNode "p" [] (.textNode "Fallback text." .nil) .nil)
      .nil)

/-- The end-to-end scenario document: a bare `article` with two
paragraphs. -/
def docArticle : Forest :=
  .elemNode "article" []
    (.elemNode "p" [] (.textNode "Sentence one." .nil)
      (.elemNode "p" [] (.textNode "Sentence two." .nil) .nil))
    .nil

/-- A document with no matching container and no fallback article tag;
its only paragraph sits in an unmatched `div`. -/
def docNoMatch : Forest :=
  .elemNode "div" ["sidebar"]
    (.elemNode "p" [] (.textNode "Unrelated text." .nil) .nil)
    .nil

/-- A throwaway environment for paths that never consult it. -/
def envDummy : Env :=
  ⟨some "key", fun _ => FetchOutcome.failure "connection refused",
    fun _ => GeminiOutcome.success "Neutral"⟩

/-- Environment of the happy-path witness: fetch always yields
`docArticle`, the model replies with an untrimmed non-canonical label. -/
def envC5 : Env :=
  ⟨some "key", fun _ => FetchOutcome.success docArticle,
    fun _ => GeminiOutcome.success "  Not A Label  "⟩

/-- Environment whose fetch yields the selector-free document. -/
def envC6 : Env :=
  ⟨some "key", fun _ => FetchOutcome.success docNoMatch,
    fun _ => GeminiOutcome.success "Neutral"⟩

/-- Environment with no credential configured but a working fetch. -/
def envC7 : Env :=
  ⟨none, fun _ => FetchOutcome.success docArticle,
    fun _ => GeminiOutcome.success "Neutral"⟩

/-- A URL whose path happens to contain the digits 403. -/
def urlC4 : String := "https://news.example.com/politics/403-election-results"

theorem listEmpty_of_isEmpty {α : Type} {l : List α} (h : l.isEmpty = true) : l = [] := by
  cases l with
  | nil => rfl
  | cons a t => simp [List.isEmpty] at h

theorem selectorTexts_of_elements_nil {doc : Forest} {sel : Selector}
    (h : selectorElements doc sel = []) : selectorTexts doc sel = [] := by
  simp [selectorTexts, h]

theorem extractLoop_eq_firstNonemptyTexts (doc : Forest) :
    ∀ sels : List Selector, extractLoop doc sels [] = firstNonemptyTexts doc sels := by
  intro sels
  induction sels with
  | nil => rfl
  | cons sel rest ih =>
    show extractLoop doc (sel :: rest) [] = firstNonemptyTexts doc (sel :: rest)
    rw [extractLoop, firstNonemptyTexts]
    by_cases he : (selectorElements doc sel).isEmpty = true
    · have hnil : selectorElements doc sel = [] := listEmpty_of_isEmpty he
      have hts : selectorTexts doc sel = [] := selectorTexts_of_elements_nil hnil
      simp [he, hts, ih]
    · simp only [he]
      have hacc : ([] : List String) ++ (((selectorElements doc sel).map paragraphTextsOf).flatten)
          = selectorTexts doc sel := by
        simp [selectorTexts]
      by_cases ht : (selectorTexts doc sel).isEmpty = true
      · have htsnil : selectorTexts doc sel = [] := listEmpty_of_isEmpty ht
        simp [hacc, ht, htsnil, ih]
      · simp [hacc, ht]


/-! Claim theorems. -/

/-- C1, counterexample: the claim says the first selector matching at
least one element wins outright, so on `docC1` (whose
`div.story-element` matches but holds no paragraph) extraction would be
Absent; the source instead moves on and returns the `article`
paragraph. -/
theorem C1_counterexample :
    specExtractClaim docC1 selectors = none ∧
    articleContentOfDoc docC1 = some "Fallback text." := by decide

/-- C1, amended: extraction tries the fixed selector list in order and
the first selector that CONTRIBUTES AT LEAST ONE PARAGRAPH wins — its
paragraph texts, in document order across its matched elements, joined
with newlines, are returned and no later selector is tried; a selector
that matches only paragraph-free elements is skipped. -/
theorem C1_first_selector_with_paragraphs_wins :
    selectors =
      [ ⟨"div", some "story-element"⟩,
        ⟨"div", some "story-body"⟩,
        ⟨"article", none⟩,
        ⟨"div", some "article-body"⟩,
        ⟨"div", some "content"⟩,
        ⟨"main", none⟩,
        ⟨"section", some "article-content"⟩ ] ∧
    ∀ doc : Forest, articleContentOfDoc doc = specExtractAmended doc selectors := by
  refine ⟨rfl, fun doc => ?_⟩
  simp only [articleContentOfDoc, extractedContent, specExtractAmended,
    extractLoop_eq_firstNonemptyTexts]

/-- C2, counterexample: an unexpected exception (a JSON decode error
with message text `Expecting value: line 1 column 1 (char 0)`) is
returned as a 500 whose detail CONTAINS that exception text, refuting
the claim that the detail is free of it. -/
theorem C2_counterexample :
    (analyze_bias envDummy
        (.invalidJson "Expecting value: line 1 column 1 (char 0)")).1 =
      Response.error 500
        "An internal server error occurred: Expecting value: line 1 column 1 (char 0)" ∧
    strContains
      "An internal server error occurred: Expecting value: line 1 column 1 (char 0)"
      "Expecting value: line 1 column 1 (char 0)" = true := by decide

/-- C2, amended: unexpected exceptions in the pipeline are caught and
converted to a 500, but the response detail EMBEDS the exception text:
the boundary handler answers
`An internal server error occurred: ` followed by the text, and the
unclassified Gemini failure answers `Google Gemini API error: `
followed by the text. The exception is logged as well, not instead. -/
theorem C2_generic_500_embeds_exception_text :
    (∀ (env : Env) (msg : String),
      analyze_bias env (.invalidJson msg) =
        (Response.error 500 ("An internal server error occurred: " ++ msg), ⟨[], []⟩)) ∧
    (∀ (key : Option String) (text msg : String) (gemini : String → GeminiOutcome),
      keyConfigured key = true → gemini text = .failure msg →
      isAuthErrorMsg msg = false → isQuotaErrorMsg msg = false →
      analyze_political_bias key text gemini =
        (.error ⟨500, "Google Gemini API error: " ++ msg⟩, [text])) := by
  refine ⟨fun env msg => rfl, fun key text msg gemini hk hg ha hq => ?_⟩
  simp [analyze_political_bias, hk, hg, ha, hq]

/-- C2 witness: the amended behaviour at two concrete failures. -/
theorem C2_witness :
    analyze_bias envDummy (.invalidJson "boom") =
      (Response.error 500 ("An internal server error occurred: " ++ "boom"), ⟨[], []⟩) ∧
    analyze_political_bias (some "key") "Some article."
        (fun _ => .failure "socket closed") =
      (.error ⟨500, "Google Gemini API error: " ++ "socket closed"⟩, ["Some article."]) :=
  ⟨C2_generic_500_embeds_exception_text.1 envDummy "boom",
    C2_generic_500_embeds_exception_text.2 (some "key") "Some article." "socket closed"
      (fun _ => .failure "socket closed") (by decide) rfl (by decide) (by decide)⟩

/-- C3, counterexample: a body that is not valid JSON is answered with
500 (through the generic handler), not with the 400 the claim
promises. -/
theorem C3_counterexample :
    analyze_bias envDummy (.invalidJson "Expecting value: line 1 column 2 (char 1)") =
      (Response.error 500
        "An internal server error occurred: Expecting value: line 1 column 2 (char 1)",
        ⟨[], []⟩) ∧
    statusOf (analyze_bias envDummy
        (.invalidJson "Expecting value: line 1 column 2 (char 1)")).1 ≠ some 400 := by decide

/-- C3, amended: a valid JSON object without a `url` field is answered
400 with no outbound call; a body that is NOT valid JSON is answered
500 (also with no outbound call), not 400. -/
theorem C3_missing_url_400_invalid_json_500 :
    (∀ (env : Env) (fields : List (String × JsonValue)),
      getField fields "url" = none →
      analyze_bias env (.jsonBody (.obj fields)) =
        (Response.error 400 "URL not provided.", ⟨[], []⟩)) ∧
    (∀ (env : Env) (msg : String),
      analyze_bias env (.invalidJson msg) = (internalErr msg, ⟨[], []⟩)) := by
  refine ⟨fun env fields h => ?_, fun env msg => rfl⟩
  simp [analyze_bias, h]

/-- C3 witness: a JSON object carrying only an unrelated field. -/
theorem C3_witness :
    analyze_bias envDummy (.jsonBody (.obj [("link", .str "https://example.com")])) =
      (Response.error 400 "URL not provided.", ⟨[], []⟩) :=
  C3_missing_url_400_invalid_json_500.1 envDummy
    [("link", .str "https://example.com")] rfl

/-- C4, counterexample: the origin answered 404 (the raised error text
is the standard `404 Client Error` message), yet because the requested
URL contains the digits 403 the service answers 422, not the 404 the
claim promises. -/
theorem C4_counterexample :
    excStatus (get_article_content urlC4
      (.failure (httpClientErrorStr "404" "Not Found" urlC4))) = some 422 ∧
    excStatus (get_article_content urlC4
      (.failure (httpClientErrorStr "404" "Not Found" urlC4))) ≠ some 404 := by decide

/-- C4, amended: fetch failures are classified by substring inspection
of the raised exception text (which embeds the URL): text containing
`401` or `403` maps to 422; otherwise text containing `404` maps to
404; otherwise 422. An origin 404 therefore maps to service 404 exactly
when its error text brings no `401` or `403` along, and 401/403 or any
other transport failure maps to 422 provided no stray `404` appears. -/
theorem C4_fetch_failure_substring_mapping (url msg : String) :
    ((strContains msg "401" = true ∨ strContains msg "403" = true) →
      excStatus (get_article_content url (.failure msg)) = some 422) ∧
    (strContains msg "401" = false → strContains msg "403" = false →
      strContains msg "404" = true →
      excStatus (get_article_content url (.failure msg)) = some 404) ∧
    (strContains msg "401" = false → strContains msg "403" = false →
      strContains msg "404" = false →
      excStatus (get_article_content url (.failure msg)) = some 422) := by
  refine ⟨?_, ?_, ?_⟩
  · rintro (h | h) <;> simp [get_article_content, excStatus, h]
  · intro h1 h3 h4
    simp [get_article_content, excStatus, h1, h3, h4]
  · intro h1 h3 h4
    simp [get_article_content, excStatus, h1, h3, h4]

/-- C4 witness: a clean origin 404 maps to 404, an origin 403 maps to
422, and a plain timeout maps to 422. -/
theorem C4_witness :
    excStatus (get_article_content "https://news.example.com/a"
      (.failure (httpClientErrorStr "404" "Not Found" "https://news.example.com/a"))) =
        some 404 ∧
    excStatus (get_article_content "https://news.example.com/a"
      (.failure (httpClientErrorStr "403" "Forbidden" "https://news.example.com/a"))) =
        some 422 ∧
    excStatus (get_article_content "https://news.example.com/a"
      (.failure "connection timed out")) = some 422 :=
  ⟨(C4_fetch_failure_substring_mapping "https://news.example.com/a"
      (httpClientErrorStr "404" "Not Found" "https://news.example.com/a")).2.1
      (by decide) (by decide) (by decide),
    (C4_fetch_failure_substring_mapping "https://news.example.com/a"
      (httpClientErrorStr "403" "Forbidden" "https://news.example.com/a")).1
      (Or.inr (by decide)),
    (C4_fetch_failure_substring_mapping "https://news.example.com/a"
      "connection timed out").2.2 (by decide) (by decide) (by decide)⟩

/-- C5: with a configured credential, a fetched document and a
non-empty extraction, the endpoint issues exactly one inference call
(the trace lists exactly the one prompt) and returns the reply text
trimmed of surrounding whitespace, verbatim and unvalidated, as
`political_bias`. -/
theorem C5_verbatim_trimmed_label (env : Env) (url : String) (doc : Forest)
    (t reply : String)
    (hu : url.isEmpty = false)
    (hf : env.fetch url = .success doc)
    (ht : articleContentOfDoc doc = some t)
    (hne : t.isEmpty = false)
    (hk : keyConfigured env.apiKey = true)
    (hg : env.gemini t = .success reply) :
    analyze_bias env (.jsonBody (.obj [("url", .str url)])) =
      (Response.success (pyStrip reply) url, ⟨[url], [t]⟩) := by
  simp [analyze_bias, getField, jsonTruthy, hu, hf, get_article_content, ht, hne,
    analyze_political_bias, hk, hg]

/-- C5 witness: the end-to-end scenario; the model reply is an
untrimmed NON-canonical label and is still passed through, trimmed,
unvalidated. -/
theorem C5_witness :
    analyze_bias envC5 (.jsonBody (.obj [("url", .str "https://example.com/story")])) =
      (Response.success "Not A Label" "https://example.com/story",
        ⟨["https://example.com/story"], ["Sentence one.\nSentence two."]⟩) := by
  have h := C5_verbatim_trimmed_label envC5 "https://example.com/story" docArticle
    "Sentence one.\nSentence two." "  Not A Label  " (by decide) rfl (by decide)
    (by decide) (by decide) rfl
  exact h

/-- C6: a successful fetch from which no selector produced any
paragraph text yields an Absent extraction (`none`), reported by the
service as a 404 with the no-content detail — not as a 500. -/
theorem C6_empty_extraction_is_404 (env : Env) (url : String) (doc : Forest)
    (hu : url.isEmpty = false)
    (hf : env.fetch url = .success doc)
    (he : extractedContent doc = []) :
    get_article_content url (env.fetch url) = .ok none ∧
    analyze_bias env (.jsonBody (.obj [("url", .str url)])) =
      (Response.error 404 noContentDetail, ⟨[url], []⟩) ∧
    statusOf (analyze_bias env (.jsonBody (.obj [("url", .str url)]))).1 ≠ some 500 := by
  have hparse : articleContentOfDoc doc = none := by
    simp [articleContentOfDoc, he]
  have hmain : analyze_bias env (.jsonBody (.obj [("url", .str url)])) =
      (Response.error 404 noContentDetail, ⟨[url], []⟩) := by
    simp [analyze_bias, getField, jsonTruthy, hu, hf, get_article_content, hparse]
  refine ⟨by simp [hf, get_article_content, hparse], hmain, ?_⟩
  rw [hmain]
  simp [statusOf]

/-- C6 witness: a document whose only container is an unmatched div. -/
theorem C6_witness :
    get_article_content "https://example.com/empty" (envC6.fetch "https://example.com/empty") =
      .ok none ∧
    analyze_bias envC6 (.jsonBody (.obj [("url", .str "https://example.com/empty")])) =
      (Response.error 404 noContentDetail, ⟨["https://example.com/empty"], []⟩) := by
  have h := C6_empty_extraction_is_404 envC6 "https://example.com/empty" docNoMatch
    (by decide) rfl (by decide)
  exact ⟨h.1, h.2.1⟩

/-- C7: when the credential is not configured (unset or empty), a
request that got as far as a non-empty extraction is answered 500 with
the configuration detail, and the inference trace is empty — no model
call is attempted, whatever the model oracle would answer. -/
theorem C7_missing_credential_500_no_inference (env : Env) (url : String)
    (doc : Forest) (t : String)
    (hk : keyConfigured env.apiKey = false)
    (hu : url.isEmpty = false)
    (hf : env.fetch url = .success doc)
    (ht : articleContentOfDoc doc = some t)
    (hne : t.isEmpty = false) :
    analyze_bias env (.jsonBody (.obj [("url", .str url)])) =
      (Response.error 500
        "Google API key not configured. Please set GOOGLE_API_KEY environment variable.",
        ⟨[url], []⟩) ∧
    analyze_political_bias env.apiKey t env.gemini =
      (.error ⟨500,
        "Google API key not configured. Please set GOOGLE_API_KEY environment variable."⟩,
        []) := by
  constructor
  · simp [analyze_bias, getField, jsonTruthy, hu, hf, get_article_content, ht, hne,
      analyze_political_bias, hk]
  · simp [analyze_political_bias, hk]

/-- C7 witness: no credential, working fetch, article present. -/
theorem C7_witness :
    analyze_bias envC7 (.jsonBody (.obj [("url", .str "https://example.com/story")])) =
      (Response.error 500
        "Google API key not configured. Please set GOOGLE_API_KEY environment variable.",
        ⟨["https://example.com/story"], []⟩) :=
  (C7_missing_credential_500_no_inference envC7 "https://example.com/story" docArticle
    "Sentence one.\nSentence two." (by decide) (by decide) rfl (by decide) (by decide)).1

/-- C8: a failed inference call is classified by the markers of its
exception text — a credential-rejection message (containing `API_KEY`,
or `authentication` case-insensitively) maps to 401; otherwise a
quota message (containing `quota` or `limit` case-insensitively) maps
to 429; any other failure maps to 500. -/
theorem C8_inference_failure_mapping (key : Option String) (text msg : String)
    (gemini : String → GeminiOutcome)
    (hk : keyConfigured key = true)
    (hg : gemini text = .failure msg) :
    (isAuthErrorMsg msg = true →
      analyze_political_bias key text gemini =
        (.error ⟨401,
          "Invalid Google API key. Please check your GOOGLE_API_KEY environment variable."⟩,
          [text])) ∧
    (isAuthErrorMsg msg = false → isQuotaErrorMsg msg = true →
      analyze_political_bias key text gemini =
        (.error ⟨429, "Google API quota exceeded. Please try again later."⟩, [text])) ∧
    (isAuthErrorMsg msg = false → isQuotaErrorMsg msg = false →
      analyze_political_bias key text gemini =
        (.error ⟨500, "Google Gemini API error: " ++ msg⟩, [text])) := by
  refine ⟨fun ha => ?_, fun ha hq => ?_, fun ha hq => ?_⟩
  · simp [analyze_political_bias, hk, hg, ha]
  · simp [analyze_political_bias, hk, hg, ha, hq]
  · simp [analyze_political_bias, hk, hg, ha, hq]

/-- C8 witness: one rejected-credential message, one quota message, one
unclassified message. -/
theorem C8_witness :
    analyze_political_bias (some "key") "Body." (fun _ => .failure "400 API_KEY_INVALID") =
      (.error ⟨401,
        "Invalid Google API key. Please check your GOOGLE_API_KEY environment variable."⟩,
        ["Body."]) ∧
    analyze_political_bias (some "key") "Body."
        (fun _ => .failure "429 Resource has been exhausted (check quota).") =
      (.error ⟨429, "Google API quota exceeded. Please try again later."⟩, ["Body."]) ∧
    analyze_political_bias (some "key") "Body."
        (fun _ => .failure "500 Internal error encountered.") =
      (.error ⟨500, "Google Gemini API error: " ++ "500 Internal error encountered."⟩,
        ["Body."]) :=
  ⟨(C8_inference_failure_mapping (some "key") "Body." "400 API_KEY_INVALID"
      (fun _ => .failure "400 API_KEY_INVALID") (by decide) rfl).1 (by decide),
    (C8_inference_failure_mapping (some "key") "Body."
      "429 Resource has been exhausted (check quota)."
      (fun _ => .failure "429 Resource has been exhausted (check quota).")
      (by decide) rfl).2.1 (by decide) (by decide),
    (C8_inference_failure_mapping (some "key") "Body." "500 Internal error encountered."
      (fun _ => .failure "500 Internal error encountered.")
      (by decide) rfl).2.2 (by decide) (by decide)⟩

/-- C9: a JSON object binding `url` to any of the falsy values — the
empty string, `null`, `0`, `false` — is answered exactly like a missing
`url` field: 400, `URL not provided.`, and no outbound call of either
kind. -/
theorem C9_falsy_url_treated_as_missing (env : Env) :
    analyze_bias env (.jsonBody (.obj [("url", .str "")])) =
      (Response.error 400 "URL not provided.", ⟨[], []⟩) ∧
    analyze_bias env (.jsonBody (.obj [("url", .null)])) =
      (Response.error 400 "URL not provided.", ⟨[], []⟩) ∧
    analyze_bias env (.jsonBody (.obj [("url", .num 0)])) =
      (Response.error 400 "URL not provided.", ⟨[], []⟩) ∧
    analyze_bias env (.jsonBody (.obj [("url", .bool false)])) =
      (Response.error 400 "URL not provided.", ⟨[], []⟩) ∧
    analyze_bias env (.jsonBody (.obj [])) =
      (Response.error 400 "URL not provided.", ⟨[], []⟩) :=
  ⟨rfl, rfl, rfl, rfl, rfl⟩

/-- C10: fetch-failure classification checks the access-denied
substrings first: error text containing `404` together with `401` or
`403` (for instance a 403 reply for a URL whose path contains 404)
maps to 422; and error text containing `404` with neither `401` nor
`403` maps to 404, whatever failure actually produced it. -/
theorem C10_denied_substrings_before_not_found (url msg : String) :
    (strContains msg "404" = true →
      (strContains msg "401" = true ∨ strContains msg "403" = true) →
      excStatus (get_article_content url (.failure msg)) = some 422) ∧
    (strContains msg "404" = true →
      strContains msg "401" = false → strContains msg "403" = false →
      excStatus (get_article_content url (.failure msg)) = some 404) := by
  constructor
  · rintro _ (h | h) <;> simp [get_article_content, excStatus, h]
  · intro h4 h1 h3
    simp [get_article_content, excStatus, h1, h3, h4]

/-- C10 witness: a 403 reply for a URL containing 404 maps to 422; a
transport failure mentioning 404 (without any 401 or 403) maps to
404. -/
theorem C10_witness :
    excStatus (get_article_content "https://site.example/story-404-live"
      (.failure (httpClientErrorStr "403" "Forbidden" "https://site.example/story-404-live"))) =
        some 422 ∧
    excStatus (get_article_content "https://site.example/x"
      (.failure "Max retries exceeded with url: /story-404")) = some 404 :=
  ⟨(C10_denied_substrings_before_not_found "https://site.example/story-404-live"
      (httpClientErrorStr "403" "Forbidden" "https://site.example/story-404-live")).1
      (by decide) (Or.inr (by decide)),
    (C10_denied_substrings_before_not_found "https://site.example/x"
      "Max retries exceeded with url: /story-404").2
      (by decide) (by decide) (by decide)⟩
